import Mathlib

/-!
Shallow embedding of the NAT Negotiation (NATNEG) UDP coordinator, Go package
`natneg`. Go maps are modelled as association lists whose list order stands for
the (unspecified) map iteration order; Go byte values are naturals below 256 by
construction; Go panics (out-of-range indexing) are modelled by `Option` with
`none` standing for a crash of the handler. Packet sends are collected in output
lists, and the goroutine spawned per pairing edge is recorded as the pair of
client indices of the edge.
-/

namespace Natneg

abbrev Byte := Nat

/-! Command codes, from the constant block of the source. -/

def NNInitRequest : Byte := 0x00
def NNInitReply : Byte := 0x01
def NNErtTestRequest : Byte := 0x02
def NNErtTestReply : Byte := 0x03
def NNStateUpdate : Byte := 0x04
def NNConnectRequest : Byte := 0x05
def NNConnectReply : Byte := 0x06
def NNConnectPing : Byte := 0x07
def NNBackupTestRequest : Byte := 0x08
def NNBackupTestReply : Byte := 0x09
def NNAddressCheckRequest : Byte := 0x0A
def NNAddressCheckReply : Byte := 0x0B
def NNNatifyRequest : Byte := 0x0C
def NNReportRequest : Byte := 0x0D
def NNReportReply : Byte := 0x0E
def NNPreInitRequest : Byte := 0x0F
def NNPreInitReply : Byte := 0x10

def PortTypeGamePort : Byte := 0x00
def PortTypeNATNEG1 : Byte := 0x01
def PortTypeNATNEG2 : Byte := 0x02
def PortTypeNATNEG3 : Byte := 0x03

/-- `NATNEGClient`, the per-participant negotiation state. `Connected` models
the Go `map[byte]bool` as the list of indices whose value is `true`. -/
structure NATNEGClient where
  Cookie : Nat
  Index : Byte
  ConnectingIndex : Byte
  ConnectAck : Bool
  Connected : List Byte
  NegotiateIP : String
  LocalIP : String
  ServerIP : String
  GameName : String
deriving Repr, DecidableEq

/-- `NATNEGSession`. `Clients` models the Go `map[byte]*NATNEGClient` as an
association list; its order stands for the map iteration order. -/
structure NATNEGSession where
  Open : Bool
  Version : Byte
  Cookie : Nat
  Clients : List (Byte × NATNEGClient)
deriving Repr, DecidableEq

abbrev ClientMap := List (Byte × NATNEGClient)

/-- Read of `session.Clients[k]` (first entry with the key). -/
def lookupClient : ClientMap → Byte → Option NATNEGClient
  | [], _ => none
  | (k', c) :: rest, k => if k' = k then some c else lookupClient rest k

/-- In-place mutation through the stored pointer: apply `f` to the client at
key `k`, keep everything else. An absent key leaves the map unchanged. -/
def updateClient (cs : ClientMap) (k : Byte) (f : NATNEGClient → NATNEGClient) : ClientMap :=
  cs.map (fun kc => if kc.1 = k then (kc.1, f kc.2) else kc)

/-- `client.Connected[i] = true`: a map write, a no-op when already present. -/
def insertConnected (l : List Byte) (i : Byte) : List Byte :=
  if l.contains i then l else l ++ [i]

/-- An outgoing datagram: payload bytes and destination address string. -/
abbrev OutPacket := List Byte × String

def packetMagic : List Byte := [0xfd, 0xfc, 0x1e, 0x66, 0x6a, 0xb2]

/-- Big-endian 4-byte encoding of a 32-bit value. -/
def u32be (n : Nat) : List Byte :=
  [n / 2 ^ 24 % 256, n / 2 ^ 16 % 256, n / 2 ^ 8 % 256, n % 256]

/-- Big-endian 32-bit decoding of the four cookie bytes. -/
def u32ofBytes (b0 b1 b2 b3 : Byte) : Nat :=
  ((b0 * 256 + b1) * 256 + b2) * 256 + b3

def createPacketHeader (version command : Byte) (cookie : Nat) : List Byte :=
  packetMagic ++ [version, command] ++ u32be cookie

/-- Modelled from the spec: `common.GetString`, the process-wide
"length-delimited string parsing" codec utility shared with the companion
server (its source is not under src/). The string is the run of bytes up to a
terminator byte `0x00`; a missing terminator is a decode error. -/
def getString : List Byte → Option String
  | [] => none
  | b :: rest =>
    if b = 0 then some "" else (getString rest).map (fun s => String.mk (Char.ofNat b :: s.data))

/-- The `fmt.Sprintf` dotted-quad-with-port rendering of the reported local
address. -/
def ipPortString (b0 b1 b2 b3 : Byte) (port : Nat) : String :=
  s!"{b0}.{b1}.{b2}.{b3}:{port}"

/-- `(*NATNEGClient).isMapped`. -/
def NATNEGClient.isMapped (client : NATNEGClient) : Bool :=
  if client.NegotiateIP = "" ∨ client.ServerIP = "" then false else true

/-- The address-learning assignments of `handleInit` (lines 350-360): the
unconditional game-name overwrite and the three conditional address updates. -/
def applyInitFields (srcAddr localIPStr gameName : String) (portType useGamePort : Byte)
    (localPort : Nat) (c : NATNEGClient) : NATNEGClient :=
  let c1 := { c with GameName := gameName }
  let c2 := if portType ≠ PortTypeGamePort then { c1 with NegotiateIP := srcAddr } else c1
  let c3 := if localPort ≠ 0 then { c2 with LocalIP := localIPStr } else c2
  if useGamePort = 0 ∨ portType = PortTypeGamePort then { c3 with ServerIP := srcAddr } else c3

/-- The client literal built by `handleInit` for a new index. -/
def freshClient (cookie : Nat) (clientIndex : Byte) : NATNEGClient :=
  { Cookie := cookie
    Index := clientIndex
    ConnectingIndex := clientIndex
    ConnectAck := false
    Connected := []
    NegotiateIP := ""
    LocalIP := ""
    ServerIP := ""
    GameName := "" }

/-- The two pointer writes performed when the pairing loop pairs `id` with
`destID`: both connecting indices point at the partner, both ack flags clear. -/
def pairWith (cs : ClientMap) (id destID : Byte) : ClientMap :=
  updateClient
    (updateClient cs id (fun s => { s with ConnectingIndex := destID, ConnectAck := false }))
    destID (fun d => { d with ConnectingIndex := id, ConnectAck := false })

/-- One iteration of the inner `for destID, destination := range session.Clients`
loop of `sendConnectRequests`, for the outer client `id`. The accumulator is
the current client map plus the pairing edges whose retry goroutine was started.
Note the Go loop has no `break`: after a successful pairing it keeps scanning
(and can re-pair `id`) without re-checking that `id` is still idle. -/
def innerStep (id : Byte) (st : ClientMap × List (Byte × Byte)) (destID : Byte) :
    ClientMap × List (Byte × Byte) :=
  match lookupClient st.1 destID with
  | none => st
  | some destination =>
    if id = destID ∨ ¬ destination.isMapped ∨ destination.ConnectingIndex ≠ destID ∨
        destination.Connected.contains id then
      st
    else
      (pairWith st.1 id destID, st.2 ++ [(id, destID)])

def connectRequestsInner (id : Byte) (keys : List Byte) (st : ClientMap × List (Byte × Byte)) :
    ClientMap × List (Byte × Byte) :=
  keys.foldl (innerStep id) st

/-- One iteration of the outer loop of `sendConnectRequests`: the guard on the
sender reads the sender's current state at the time its iteration starts. -/
def outerStep (keys : List Byte) (st : ClientMap × List (Byte × Byte)) (id : Byte) :
    ClientMap × List (Byte × Byte) :=
  match lookupClient st.1 id with
  | none => st
  | some sender =>
    if ¬ sender.isMapped ∨ sender.ConnectingIndex ≠ id then st
    else connectRequestsInner id keys st

/-- `(*NATNEGSession).sendConnectRequests`, as a transformation of the client
map; the returned list records, in order, the `(sender, destination)` edges for
which a retry goroutine was launched. The key list is fixed at entry: pairings
mutate values through pointers, never the key set. -/
def sendConnectRequests (cs : ClientMap) : ClientMap × List (Byte × Byte) :=
  (cs.map Prod.fst).foldl (outerStep (cs.map Prod.fst)) (cs, [])

/-- Result of one command handler: the mutated session, the datagrams written
directly by the handler, and the pairing edges whose retry task was started. -/
structure HandlerResult where
  session : NATNEGSession
  sent : List OutPacket
  edges : List (Byte × Byte)
deriving Repr, DecidableEq

/-- The client registration step of `handleInit` (lines 326-348): an existing
index is used as is; a new index is validated against every existing client's
game name and appended on success; a mismatch rejects registration (`none`). -/
def initClients (session : NATNEGSession) (clientIndex : Byte) (gameName : String) :
    Option ClientMap :=
  match lookupClient session.Clients clientIndex with
  | some _ => some session.Clients
  | none =>
    if session.Clients.any (fun kc => kc.2.GameName != gameName) then none
    else some (session.Clients ++ [(clientIndex, freshClient session.Cookie clientIndex)])

/-- Registration, address learning, and the conditional invocation of the
pairing engine (lines 326-368), returning the mutated session and the pairing
edges started. -/
def initRegisterAndLearn (session : NATNEGSession) (srcAddr localIPStr gameName : String)
    (portType clientIndex useGamePort : Byte) (localPort : Nat) :
    NATNEGSession × List (Byte × Byte) :=
  match initClients session clientIndex gameName with
  | none => (session, [])
  | some clients0 =>
    let clients1 := updateClient clients0 clientIndex
      (applyInitFields srcAddr localIPStr gameName portType useGamePort localPort)
    match lookupClient clients1 clientIndex with
    | none => ({ session with Clients := clients1 }, [])
    | some sender =>
      if ¬ sender.isMapped then ({ session with Clients := clients1 }, [])
      else
        let r := sendConnectRequests clients1
        ({ session with Clients := r.1 }, r.2)

/-- `(*NATNEGSession).handleInit`: length check, game-name decode, field
validation, the unconditional acknowledgement, then registration and address
learning. -/
def handleInit (session : NATNEGSession) (srcAddr : String) (payload : List Byte)
    (version : Byte) : HandlerResult :=
  if payload.length < 10 then ⟨session, [], []⟩
  else
    match getString (payload.drop 9) with
    | none => ⟨session, [], []⟩
    | some gameName =>
      let portType := payload.getD 0 0
      let clientIndex := payload.getD 1 0
      let useGamePort := payload.getD 2 0
      let localPort := payload.getD 7 0 * 256 + payload.getD 8 0
      let localIPStr :=
        ipPortString (payload.getD 3 0) (payload.getD 4 0) (payload.getD 5 0) (payload.getD 6 0)
          localPort
      if portType > 0x03 then ⟨session, [], []⟩
      else if useGamePort > 1 then ⟨session, [], []⟩
      else if useGamePort = 0 ∧ portType = PortTypeGamePort then ⟨session, [], []⟩
      else
        let ack := createPacketHeader version NNInitReply session.Cookie ++
          [portType, clientIndex] ++ [0xff, 0xff, 0x6d, 0x16, 0xb5, 0x7d, 0xea]
        let r := initRegisterAndLearn session srcAddr localIPStr gameName portType clientIndex
          useGamePort localPort
        ⟨r.1, [(ack, srcAddr)], r.2⟩

/-- `(*NATNEGSession).handleConnectReply`. The Go body reads `buffer[1]` with
no length check, so a payload shorter than 2 bytes panics: that crash is
`none`. -/
def handleConnectReply (session : NATNEGSession) (payload : List Byte) : Option HandlerResult :=
  match payload.get? 1 with
  | none => none
  | some clientIndex =>
    some ⟨{ session with
            Clients := updateClient session.Clients clientIndex
              (fun c => { c with ConnectAck := true }) }, [], []⟩

/-- The rotation step of `handleReport` (lines 472-476): mark the current
target connected, point the client back at the packet's client index, clear
the ack flag. -/
def reportRotate (cs : ClientMap) (clientIndex : Byte) : ClientMap :=
  updateClient cs clientIndex (fun c =>
    { c with
      Connected := insertConnected c.Connected c.ConnectingIndex
      ConnectingIndex := clientIndex
      ConnectAck := false })

/-- `(*NATNEGSession).handleReport`. `buffer[:9]` is a Go slice expression,
bounded by the payload slice's capacity (1012: the listener reads into a fresh
zeroed 1024-byte buffer and hands `buffer[12:]` over), so a payload shorter
than 9 bytes is echoed zero-padded, not a panic. The reads `buffer[1]` and
`buffer[2]` are length-bounded index expressions: a payload shorter than 3
bytes panics there — after the reply at line 460 was already written on the
wire. The crash is `none`; the model discards the datagrams a crashed handler
wrote before its panic. -/
def handleReport (session : NATNEGSession) (srcAddr : String) (payload : List Byte)
    (version : Byte) : Option HandlerResult :=
  let response :=
    (createPacketHeader version NNReportReply session.Cookie ++
      (payload.take 9 ++ List.replicate (9 - payload.length) 0)).set 14 0
  if payload.length < 3 then none
  else
    let clients1 := reportRotate session.Clients (payload.getD 1 0)
    let r := sendConnectRequests clients1
    some ⟨{ session with Clients := r.1 }, [(response, srcAddr)], r.2⟩

/-- The expiry callback armed at session creation (lines 148-173): close the
session, and send one forced Report-Reply per mid-negotiation client. Every
`conn.WriteTo` in the closure uses the captured `addr` — the source address of
the packet that created the session — so that is the destination recorded for
every cancellation packet. -/
def expireSession (session : NATNEGSession) (creatorAddr : String) (version : Byte) :
    NATNEGSession × List OutPacket :=
  ({ session with Open := false },
    (session.Clients.filter (fun kc => kc.2.ConnectingIndex ≠ kc.2.Index)).map (fun kc =>
      (createPacketHeader version NNReportReply session.Cookie ++
        [0x00, kc.2.Index, 0x00, 0x00, 0x00, 0x00, 0x06, 0x00, 0x00], creatorAddr)))

/-- The cookie → session registry. -/
abbrev Registry := List (Nat × NATNEGSession)

def lookupSession : Registry → Nat → Option NATNEGSession
  | [], _ => none
  | (k', s) :: rest, k => if k' = k then some s else lookupSession rest k

def updateSession (reg : Registry) (cookie : Nat) (s : NATNEGSession) : Registry :=
  reg.map (fun ks => if ks.1 = cookie then (ks.1, s) else ks)

/-- Result of processing one datagram: the new registry, the datagrams sent,
the cookies for which a 30-second expiry timer was armed, and the pairing
edges whose retry task was started. -/
structure ProcessResult where
  registry : Registry
  sent : List OutPacket
  timersArmed : List Nat
  edges : List (Byte × Byte)
deriving Repr, DecidableEq

/-- `handleConnection`: transport-boundary validation, header parse, lazy
session creation (for every command except the two stateless probes), version
check, and dispatch by command code. `none` models a crash (a panic escaping
the packet's goroutine). -/
def handleConnection (reg : Registry) (srcAddr : String) (buffer : List Byte) :
    Option ProcessResult :=
  if buffer.length < 12 ∨ buffer.take 6 ≠ packetMagic then
    some ⟨reg, [], [], []⟩
  else
    let version := buffer.getD 6 0
    let command := buffer.getD 7 0
    let cookie := u32ofBytes (buffer.getD 8 0) (buffer.getD 9 0) (buffer.getD 10 0)
      (buffer.getD 11 0)
    if command = NNNatifyRequest ∨ command = NNAddressCheckRequest then
      some ⟨reg, [], [], []⟩
    else
      let created :=
        match lookupSession reg cookie with
        | some s => (s, reg, ([] : List Nat))
        | none =>
          let s : NATNEGSession :=
            { Open := true, Version := version, Cookie := cookie, Clients := [] }
          (s, reg ++ [(cookie, s)], [cookie])
      let session := created.1
      let reg1 := created.2.1
      let timers := created.2.2
      if session.Version ≠ version then some ⟨reg1, [], timers, []⟩
      else
        if command = NNInitRequest then
          let r := handleInit session srcAddr (buffer.drop 12) version
          some ⟨updateSession reg1 cookie r.session, r.sent, timers, r.edges⟩
        else if command = NNConnectReply then
          (handleConnectReply session (buffer.drop 12)).map
            (fun r => ⟨updateSession reg1 cookie r.session, r.sent, timers, r.edges⟩)
        else if command = NNReportRequest then
          (handleReport session srcAddr (buffer.drop 12) version).map
            (fun r => ⟨updateSession reg1 cookie r.session, r.sent, timers, r.edges⟩)
        else
          some ⟨reg1, [], timers, []⟩

/-- Client builder for the concrete scenarios: ack flag clear, no local
address. -/
def sampleClient (cookie : Nat) (idx ci : Byte) (neg srv gname : String) (conn : List Byte) :
    NATNEGClient :=
  ⟨cookie, idx, ci, false, conn, neg, "", srv, gname⟩

end Natneg

namespace Natneg

/-! ### Association-list lemmas -/

theorem lookupClient_nil (k : Byte) : lookupClient [] k = none := rfl

theorem lookupClient_cons (kc : Byte × NATNEGClient) (rest : ClientMap) (k : Byte) :
    lookupClient (kc :: rest) k = if kc.1 = k then some kc.2 else lookupClient rest k := rfl

theorem updateClient_nil (k : Byte) (f : NATNEGClient → NATNEGClient) :
    updateClient [] k f = [] := rfl

theorem updateClient_cons (kc : Byte × NATNEGClient) (rest : ClientMap) (k : Byte)
    (f : NATNEGClient → NATNEGClient) :
    updateClient (kc :: rest) k f =
      (if kc.1 = k then (kc.1, f kc.2) else kc) :: updateClient rest k f := by
  unfold updateClient
  rw [List.map_cons]

theorem lookupClient_updateClient (cs : ClientMap) (k k' : Byte)
    (f : NATNEGClient → NATNEGClient) :
    lookupClient (updateClient cs k f) k' =
      if k' = k then (lookupClient cs k').map f else lookupClient cs k' := by
  induction cs with
  | nil => simp [lookupClient_nil, updateClient_nil]
  | cons kc rest ih =>
    obtain ⟨a, c⟩ := kc
    rw [updateClient_cons]
    dsimp only
    by_cases h1 : a = k
    · subst h1
      rw [if_pos rfl, lookupClient_cons, lookupClient_cons]
      dsimp only
      by_cases h2 : a = k'
      · subst h2
        simp
      · rw [if_neg h2, if_neg h2, ih]
    · rw [if_neg h1, lookupClient_cons, lookupClient_cons]
      dsimp only
      by_cases h2 : a = k'
      · subst h2
        rw [if_pos rfl, if_pos rfl, if_neg h1]
      · rw [if_neg h2, if_neg h2, ih]

theorem lookupClient_append_some {cs1 : ClientMap} (cs2 : ClientMap) {k : Byte}
    {c : NATNEGClient} (h : lookupClient cs1 k = some c) :
    lookupClient (cs1 ++ cs2) k = some c := by
  induction cs1 with
  | nil => simp [lookupClient_nil] at h
  | cons kc rest ih =>
    rw [lookupClient_cons] at h
    rw [List.cons_append, lookupClient_cons]
    split at h <;> split <;> simp_all

theorem lookupClient_append_none {cs1 : ClientMap} (cs2 : ClientMap) {k : Byte}
    (h : lookupClient cs1 k = none) :
    lookupClient (cs1 ++ cs2) k = lookupClient cs2 k := by
  induction cs1 with
  | nil => rfl
  | cons kc rest ih =>
    rw [lookupClient_cons] at h
    rw [List.cons_append, lookupClient_cons]
    split at h <;> split <;> simp_all

theorem lookupClient_mem {cs : ClientMap} {k : Byte} {c : NATNEGClient}
    (h : lookupClient cs k = some c) : (k, c) ∈ cs := by
  induction cs with
  | nil => simp [lookupClient_nil] at h
  | cons kc rest ih =>
    rw [lookupClient_cons] at h
    split at h
    · next heq =>
      injection h with h
      subst h
      exact List.mem_cons.2 (Or.inl (by obtain ⟨a, c'⟩ := kc; simp_all))
    · exact List.mem_cons.2 (Or.inr (ih h))

theorem foldl_invariant {α β : Type _} (P : β → Prop) (f : β → α → β) (l : List α) (b : β)
    (hb : P b) (hf : ∀ b' a, P b' → P (f b' a)) : P (l.foldl f b) := by
  induction l generalizing b with
  | nil => exact hb
  | cons x xs ih => exact ih (f b x) (hf b x hb)

end Natneg

namespace Natneg

/-! ### The pairing engine only writes `ConnectingIndex` and `ConnectAck` -/

/-- The components of a client that the pairing engine never writes. -/
def staticPart (c : NATNEGClient) :
    Nat × Byte × List Byte × String × String × String × String :=
  (c.Cookie, c.Index, c.Connected, c.NegotiateIP, c.LocalIP, c.ServerIP, c.GameName)

def staticRel (kc kc' : Byte × NATNEGClient) : Prop :=
  kc'.1 = kc.1 ∧ staticPart kc'.2 = staticPart kc.2

/-- `cs'` has the same keys, in the same order, as `cs`, and every client agrees
with its counterpart on everything except `ConnectingIndex` and `ConnectAck`. -/
def mapStatic (cs cs' : ClientMap) : Prop := List.Forall₂ staticRel cs cs'

theorem staticPart_Index {c c' : NATNEGClient} (h : staticPart c = staticPart c') :
    c.Index = c'.Index := congrArg (fun t => t.2.1) h

theorem staticPart_Connected {c c' : NATNEGClient} (h : staticPart c = staticPart c') :
    c.Connected = c'.Connected := congrArg (fun t => t.2.2.1) h

theorem staticPart_NegotiateIP {c c' : NATNEGClient} (h : staticPart c = staticPart c') :
    c.NegotiateIP = c'.NegotiateIP := congrArg (fun t => t.2.2.2.1) h

theorem staticPart_LocalIP {c c' : NATNEGClient} (h : staticPart c = staticPart c') :
    c.LocalIP = c'.LocalIP := congrArg (fun t => t.2.2.2.2.1) h

theorem staticPart_ServerIP {c c' : NATNEGClient} (h : staticPart c = staticPart c') :
    c.ServerIP = c'.ServerIP := congrArg (fun t => t.2.2.2.2.2.1) h

theorem staticPart_GameName {c c' : NATNEGClient} (h : staticPart c = staticPart c') :
    c.GameName = c'.GameName := congrArg (fun t => t.2.2.2.2.2.2) h

theorem mapStatic_refl (cs : ClientMap) : mapStatic cs cs :=
  List.forall₂_same.2 fun _ _ => ⟨rfl, rfl⟩

theorem mapStatic_trans : ∀ {cs1 cs2 cs3 : ClientMap},
    mapStatic cs1 cs2 → mapStatic cs2 cs3 → mapStatic cs1 cs3 := by
  intro cs1 cs2 cs3 h1 h2
  induction h1 generalizing cs3 with
  | nil => exact h2
  | cons hr _ ih =>
    cases h2 with
    | cons hr' ht' => exact List.Forall₂.cons ⟨hr'.1.trans hr.1, hr'.2.trans hr.2⟩ (ih ht')

theorem mapStatic_updateClient (cs : ClientMap) (k : Byte) (f : NATNEGClient → NATNEGClient)
    (hf : ∀ c, staticPart (f c) = staticPart c) : mapStatic cs (updateClient cs k f) := by
  induction cs with
  | nil => exact List.Forall₂.nil
  | cons kc rest ih =>
    rw [updateClient_cons]
    refine List.Forall₂.cons ?_ ih
    split
    · exact ⟨rfl, hf kc.2⟩
    · exact ⟨rfl, rfl⟩

theorem lookupClient_mapStatic {cs cs' : ClientMap} (h : mapStatic cs cs') (k : Byte) :
    (lookupClient cs' k).map staticPart = (lookupClient cs k).map staticPart := by
  induction h with
  | nil => rfl
  | cons hr _ ih =>
    rename_i a b l1 l2
    rw [lookupClient_cons, lookupClient_cons, hr.1]
    split
    · simp [hr.2]
    · exact ih

/-- Key/index agreement: every entry's client carries the entry's key as its
`Index`. -/
def goodKeys (cs : ClientMap) : Prop := ∀ kc ∈ cs, kc.2.Index = kc.1

theorem goodKeys_mapStatic : ∀ {cs cs' : ClientMap},
    mapStatic cs cs' → goodKeys cs → goodKeys cs' := by
  intro cs cs' h
  induction h with
  | nil => exact fun hg => hg
  | cons hr ht ih =>
    rename_i a b l1 l2
    intro hg kc hkc
    rcases List.mem_cons.1 hkc with rfl | hmem
    · have hidx : kc.2.Index = a.2.Index := congrArg (fun t => t.2.1) hr.2
      rw [hidx, hr.1]
      exact hg a (List.mem_cons_self a l1)
    · exact ih (fun kc' h' => hg kc' (List.mem_cons_of_mem a h')) kc hmem

theorem mapStatic_pairWith (cs : ClientMap) (id destID : Byte) :
    mapStatic cs (pairWith cs id destID) := by
  unfold pairWith
  exact mapStatic_trans
    (mapStatic_updateClient cs id
      (fun s => { s with ConnectingIndex := destID, ConnectAck := false }) (fun _ => rfl))
    (mapStatic_updateClient _ destID
      (fun d => { d with ConnectingIndex := id, ConnectAck := false }) (fun _ => rfl))

theorem mapStatic_innerStep (cs0 : ClientMap) (id : Byte) (st : ClientMap × List (Byte × Byte))
    (destID : Byte) (hst : mapStatic cs0 st.1) : mapStatic cs0 (innerStep id st destID).1 := by
  unfold innerStep
  cases h : lookupClient st.1 destID with
  | none => simpa [h] using hst
  | some destination =>
    simp only [h]
    split
    · exact hst
    · exact mapStatic_trans hst (mapStatic_pairWith st.1 id destID)

theorem mapStatic_connectRequestsInner (cs0 : ClientMap) (id : Byte) (keys : List Byte)
    (st : ClientMap × List (Byte × Byte)) (hst : mapStatic cs0 st.1) :
    mapStatic cs0 (connectRequestsInner id keys st).1 := by
  unfold connectRequestsInner
  exact foldl_invariant (fun st' => mapStatic cs0 st'.1) (innerStep id) keys st hst
    (fun st' a h => mapStatic_innerStep cs0 id st' a h)

theorem mapStatic_outerStep (cs0 : ClientMap) (keys : List Byte)
    (st : ClientMap × List (Byte × Byte)) (id : Byte) (hst : mapStatic cs0 st.1) :
    mapStatic cs0 (outerStep keys st id).1 := by
  unfold outerStep
  cases h : lookupClient st.1 id with
  | none => simpa [h] using hst
  | some sender =>
    simp only [h]
    split
    · exact hst
    · exact mapStatic_connectRequestsInner cs0 id keys st hst

theorem mapStatic_sendConnectRequests (cs : ClientMap) :
    mapStatic cs (sendConnectRequests cs).1 := by
  unfold sendConnectRequests
  exact foldl_invariant (fun st' => mapStatic cs st'.1) (outerStep (cs.map Prod.fst))
    (cs.map Prod.fst) (cs, []) (mapStatic_refl cs)
    (fun st' a h => mapStatic_outerStep cs (cs.map Prod.fst) st' a h)

theorem goodKeys_sendConnectRequests {cs : ClientMap} (hg : goodKeys cs) :
    goodKeys (sendConnectRequests cs).1 :=
  goodKeys_mapStatic (mapStatic_sendConnectRequests cs) hg

end Natneg

namespace Natneg

theorem lookupClient_some_mapStatic {cs cs' : ClientMap} (h : mapStatic cs cs') {k : Byte}
    {c : NATNEGClient} (hc : lookupClient cs k = some c) :
    ∃ c', lookupClient cs' k = some c' ∧ staticPart c' = staticPart c := by
  have h1 := lookupClient_mapStatic h k
  rw [hc] at h1
  cases h2 : lookupClient cs' k with
  | none => rw [h2] at h1; simp at h1
  | some c' =>
    rw [h2] at h1
    simp only [Option.map_some'] at h1
    exact ⟨c', rfl, by injection h1⟩

/-- The fact recorded about an edge `(a, b)`: `a` is not in `b`'s connected
set (in the client map at engine invocation time). -/
def edgeUnconnected (cs0 : ClientMap) (e : Byte × Byte) : Prop :=
  ∃ c, lookupClient cs0 e.2 = some c ∧ c.Connected.contains e.1 = false

theorem innerStep_edges (cs0 : ClientMap) (id : Byte) (st : ClientMap × List (Byte × Byte))
    (destID : Byte)
    (hst : mapStatic cs0 st.1 ∧ ∀ e ∈ st.2, edgeUnconnected cs0 e) :
    mapStatic cs0 (innerStep id st destID).1 ∧
      ∀ e ∈ (innerStep id st destID).2, edgeUnconnected cs0 e := by
  unfold innerStep
  cases h : lookupClient st.1 destID with
  | none => simpa [h] using hst
  | some destination =>
    simp only [h]
    split
    · exact hst
    · next hguard =>
      refine ⟨mapStatic_trans hst.1 (mapStatic_pairWith st.1 id destID), ?_⟩
      intro e he
      rcases List.mem_append.1 he with he | he
      · exact hst.2 e he
      · have he' : e = (id, destID) := by simpa using he
        subst he'
        push_neg at hguard
        obtain ⟨-, -, -, hconn⟩ := hguard
        have h1 := lookupClient_mapStatic hst.1 destID
        rw [h] at h1
        cases h2 : lookupClient cs0 destID with
        | none => rw [h2] at h1; simp at h1
        | some c0 =>
          rw [h2] at h1
          simp only [Option.map_some'] at h1
          have hs : staticPart destination = staticPart c0 := by injection h1
          unfold edgeUnconnected
          refine ⟨c0, h2, ?_⟩
          rw [← staticPart_Connected hs]
          simp only [ne_eq, Bool.not_eq_true] at hconn
          exact hconn

theorem outerStep_edges (cs0 : ClientMap) (keys : List Byte)
    (st : ClientMap × List (Byte × Byte)) (id : Byte)
    (hst : mapStatic cs0 st.1 ∧ ∀ e ∈ st.2, edgeUnconnected cs0 e) :
    mapStatic cs0 (outerStep keys st id).1 ∧
      ∀ e ∈ (outerStep keys st id).2, edgeUnconnected cs0 e := by
  unfold outerStep
  cases h : lookupClient st.1 id with
  | none => simpa [h] using hst
  | some sender =>
    simp only [h]
    split
    · exact hst
    · unfold connectRequestsInner
      exact foldl_invariant
        (fun st' => mapStatic cs0 st'.1 ∧ ∀ e ∈ st'.2, edgeUnconnected cs0 e)
        (innerStep id) keys st hst (fun st' a h' => innerStep_edges cs0 id st' a h')

theorem sendConnectRequests_edges (cs : ClientMap) :
    ∀ e ∈ (sendConnectRequests cs).2, edgeUnconnected cs e := by
  unfold sendConnectRequests
  exact (foldl_invariant
    (fun st => mapStatic cs st.1 ∧ ∀ e ∈ st.2, edgeUnconnected cs e)
    (outerStep (cs.map Prod.fst)) (cs.map Prod.fst) (cs, [])
    ⟨mapStatic_refl cs, by simp⟩
    (fun st a hst => outerStep_edges cs (cs.map Prod.fst) st a hst)).2

/-! ### goodKeys preservation -/

theorem goodKeys_nil : goodKeys [] := fun kc hkc => absurd hkc (List.not_mem_nil kc)

theorem goodKeys_updateClient {cs : ClientMap} (k : Byte) {f : NATNEGClient → NATNEGClient}
    (hf : ∀ c, (f c).Index = c.Index) (hg : goodKeys cs) : goodKeys (updateClient cs k f) := by
  intro kc' h'
  unfold updateClient at h'
  rcases List.mem_map.1 h' with ⟨kc, hkc, rfl⟩
  split
  · exact (hf kc.2).trans (hg kc hkc)
  · exact hg kc hkc

theorem goodKeys_append_single {cs : ClientMap} {k : Byte} {c : NATNEGClient}
    (hg : goodKeys cs) (hc : c.Index = k) : goodKeys (cs ++ [(k, c)]) := by
  intro kc hkc
  rcases List.mem_append.1 hkc with h | h
  · exact hg kc h
  · have hkc' : kc = (k, c) := by simpa using h
    subst hkc'
    exact hc

theorem goodKeys_initClients {s : NATNEGSession} {idx : Byte} {g : String} {cs0 : ClientMap}
    (h : initClients s idx g = some cs0) (hg : goodKeys s.Clients) : goodKeys cs0 := by
  unfold initClients at h
  cases hl : lookupClient s.Clients idx with
  | some c =>
    simp only [hl] at h
    injection h with h
    subst h
    exact hg
  | none =>
    simp only [hl] at h
    split at h
    · cases h
    · injection h with h
      subst h
      exact goodKeys_append_single hg rfl

/-! ### applyInitFields field values -/

theorem applyInitFields_Index (src lip g : String) (pt ugp : Byte) (lp : Nat)
    (c : NATNEGClient) : (applyInitFields src lip g pt ugp lp c).Index = c.Index := by
  simp only [applyInitFields]
  split <;> split <;> split <;> rfl

theorem applyInitFields_GameName (src lip g : String) (pt ugp : Byte) (lp : Nat)
    (c : NATNEGClient) : (applyInitFields src lip g pt ugp lp c).GameName = g := by
  simp only [applyInitFields]
  split <;> split <;> split <;> rfl

theorem applyInitFields_NegotiateIP (src lip g : String) (pt ugp : Byte) (lp : Nat)
    (c : NATNEGClient) :
    (applyInitFields src lip g pt ugp lp c).NegotiateIP =
      if pt ≠ PortTypeGamePort then src else c.NegotiateIP := by
  simp only [applyInitFields]
  split <;> split <;> split <;> simp_all

theorem applyInitFields_LocalIP (src lip g : String) (pt ugp : Byte) (lp : Nat)
    (c : NATNEGClient) :
    (applyInitFields src lip g pt ugp lp c).LocalIP =
      if lp ≠ 0 then lip else c.LocalIP := by
  simp only [applyInitFields]
  split <;> split <;> split <;> simp_all

theorem applyInitFields_ServerIP (src lip g : String) (pt ugp : Byte) (lp : Nat)
    (c : NATNEGClient) :
    (applyInitFields src lip g pt ugp lp c).ServerIP =
      if ugp = 0 ∨ pt = PortTypeGamePort then src else c.ServerIP := by
  simp only [applyInitFields]
  split <;> split <;> split <;> simp_all

end Natneg

namespace Natneg

/-! ### Branch structure of handleInit -/

theorem initRegisterAndLearn_cases (s : NATNEGSession) (src lip g : String)
    (pt idx ugp : Byte) (lp : Nat) :
    (initRegisterAndLearn s src lip g pt idx ugp lp).1.Clients = s.Clients ∨
    ∃ cs0, initClients s idx g = some cs0 ∧
      ((initRegisterAndLearn s src lip g pt idx ugp lp).1.Clients =
         updateClient cs0 idx (applyInitFields src lip g pt ugp lp) ∨
       (initRegisterAndLearn s src lip g pt idx ugp lp).1.Clients =
         (sendConnectRequests
           (updateClient cs0 idx (applyInitFields src lip g pt ugp lp))).1) := by
  unfold initRegisterAndLearn
  cases h : initClients s idx g with
  | none => simp [h]
  | some cs0 =>
    simp only [h]
    refine Or.inr ⟨cs0, rfl, ?_⟩
    cases h2 : lookupClient (updateClient cs0 idx (applyInitFields src lip g pt ugp lp)) idx with
    | none =>
      simp [h2]
    | some sender =>
      simp only [h2]
      split
      · exact Or.inl rfl
      · exact Or.inr rfl

theorem handleInit_clients_cases (s : NATNEGSession) (src : String) (pl : List Byte)
    (v : Byte) :
    (handleInit s src pl v).session.Clients = s.Clients ∨
    ∃ g cs0, getString (pl.drop 9) = some g ∧
      initClients s (pl.getD 1 0) g = some cs0 ∧
      ((handleInit s src pl v).session.Clients =
         updateClient cs0 (pl.getD 1 0)
           (applyInitFields src
             (ipPortString (pl.getD 3 0) (pl.getD 4 0) (pl.getD 5 0) (pl.getD 6 0)
               (pl.getD 7 0 * 256 + pl.getD 8 0))
             g (pl.getD 0 0) (pl.getD 2 0) (pl.getD 7 0 * 256 + pl.getD 8 0)) ∨
       (handleInit s src pl v).session.Clients =
         (sendConnectRequests
           (updateClient cs0 (pl.getD 1 0)
             (applyInitFields src
               (ipPortString (pl.getD 3 0) (pl.getD 4 0) (pl.getD 5 0) (pl.getD 6 0)
                 (pl.getD 7 0 * 256 + pl.getD 8 0))
               g (pl.getD 0 0) (pl.getD 2 0) (pl.getD 7 0 * 256 + pl.getD 8 0)))).1) := by
  unfold handleInit
  split
  · exact Or.inl rfl
  · cases hg : getString (pl.drop 9) with
    | none => simp [hg]
    | some g =>
      simp only [hg]
      split
      · exact Or.inl rfl
      · split
        · exact Or.inl rfl
        · split
          · exact Or.inl rfl
          · rcases initRegisterAndLearn_cases s src
              (ipPortString (pl.getD 3 0) (pl.getD 4 0) (pl.getD 5 0) (pl.getD 6 0)
                (pl.getD 7 0 * 256 + pl.getD 8 0))
              g (pl.getD 0 0) (pl.getD 1 0) (pl.getD 2 0)
              (pl.getD 7 0 * 256 + pl.getD 8 0) with h | ⟨cs0, hcs0, h⟩
            · exact Or.inl h
            · exact Or.inr ⟨g, cs0, rfl, hcs0, h⟩

end Natneg

namespace Natneg

/-! ### Projections preserved by the pairing engine -/

theorem lookupClient_proj_mapStatic {β : Type} {cs cs' : ClientMap} (h : mapStatic cs cs')
    (k : Byte) (φ : NATNEGClient → β)
    (hφ : ∀ c c', staticPart c = staticPart c' → φ c = φ c') :
    (lookupClient cs' k).map φ = (lookupClient cs k).map φ := by
  have h1 := lookupClient_mapStatic h k
  cases h2 : lookupClient cs k with
  | none =>
    rw [h2] at h1
    cases h3 : lookupClient cs' k with
    | none => rfl
    | some c' => rw [h3] at h1; simp at h1
  | some c =>
    rw [h2] at h1
    cases h3 : lookupClient cs' k with
    | none => rw [h3] at h1; simp at h1
    | some c' =>
      rw [h3] at h1
      simp only [Option.map_some'] at h1 ⊢
      have hs : staticPart c' = staticPart c := by injection h1
      rw [hφ c' c hs]

/-! ### The shape of handleReport and handleConnectReply on success -/

theorem handleReport_some (s : NATNEGSession) (src : String) (pl : List Byte) (v : Byte)
    (hlen : 9 ≤ pl.length) :
    handleReport s src pl v =
      some ⟨{ s with
              Clients := (sendConnectRequests (reportRotate s.Clients (pl.getD 1 0))).1 },
        [((createPacketHeader v NNReportReply s.Cookie ++
            (pl.take 9 ++ List.replicate (9 - pl.length) 0)).set 14 0, src)],
        (sendConnectRequests (reportRotate s.Clients (pl.getD 1 0))).2⟩ := by
  unfold handleReport
  dsimp only
  rw [if_neg (by omega)]

theorem reportRotate_Connected (cs : ClientMap) (idx k : Byte) :
    (lookupClient (reportRotate cs idx) k).map NATNEGClient.Connected =
      (lookupClient cs k).map (fun c =>
        if k = idx then insertConnected c.Connected c.ConnectingIndex else c.Connected) := by
  unfold reportRotate
  rw [lookupClient_updateClient]
  by_cases h : k = idx
  · rw [if_pos h]
    cases lookupClient cs k <;> simp [h]
  · rw [if_neg h]
    cases lookupClient cs k <;> simp [h]

theorem reportRotate_idle {cs : ClientMap} (hg : goodKeys cs) (idx : Byte) {c' : NATNEGClient}
    (h : lookupClient (reportRotate cs idx) idx = some c') :
    c'.ConnectingIndex = c'.Index := by
  unfold reportRotate at h
  rw [lookupClient_updateClient, if_pos rfl] at h
  cases h2 : lookupClient cs idx with
  | none => rw [h2] at h; cases h
  | some c =>
    rw [h2] at h
    simp only [Option.map_some'] at h
    injection h with h
    subst h
    exact (hg (idx, c) (lookupClient_mem h2)).symm

/-! ### goodKeys is preserved by every handler -/

theorem goodKeys_handleInit (s : NATNEGSession) (src : String) (pl : List Byte) (v : Byte)
    (hg : goodKeys s.Clients) : goodKeys (handleInit s src pl v).session.Clients := by
  rcases handleInit_clients_cases s src pl v with h | ⟨g, cs0, hgs, hcs0, h | h⟩
  · rw [h]; exact hg
  · rw [h]
    exact goodKeys_updateClient _ (fun c => applyInitFields_Index _ _ _ _ _ _ c)
      (goodKeys_initClients hcs0 hg)
  · rw [h]
    exact goodKeys_sendConnectRequests
      (goodKeys_updateClient _ (fun c => applyInitFields_Index _ _ _ _ _ _ c)
        (goodKeys_initClients hcs0 hg))

theorem goodKeys_handleConnectReply {s : NATNEGSession} {pl : List Byte} {r : HandlerResult}
    (h : handleConnectReply s pl = some r) (hg : goodKeys s.Clients) :
    goodKeys r.session.Clients := by
  unfold handleConnectReply at h
  cases h1 : pl.get? 1 with
  | none => simp only [h1] at h; exact Option.noConfusion h
  | some idx =>
    simp only [h1] at h
    injection h with h
    subst h
    exact @goodKeys_updateClient s.Clients idx (fun c => { c with ConnectAck := true })
      (fun _ => rfl) hg

theorem goodKeys_handleReport {s : NATNEGSession} {src : String} {pl : List Byte} {v : Byte}
    {r : HandlerResult} (h : handleReport s src pl v = some r) (hg : goodKeys s.Clients) :
    goodKeys r.session.Clients := by
  unfold handleReport at h
  dsimp only at h
  split at h
  · cases h
  · injection h with h
    subst h
    have hrot : goodKeys (reportRotate s.Clients (pl.getD 1 0)) := by
      unfold reportRotate
      exact @goodKeys_updateClient s.Clients (pl.getD 1 0)
        (fun c => { c with
          Connected := insertConnected c.Connected c.ConnectingIndex
          ConnectingIndex := pl.getD 1 0
          ConnectAck := false }) (fun _ => rfl) hg
    exact goodKeys_sendConnectRequests hrot

end Natneg

namespace Natneg

/-- Claim C1: short command payloads are not dropped. A ConnectReply whose
payload has fewer than 2 bytes reaches the unchecked length-bounded index
`buffer[1]` and panics (`none`), and so does a Report whose payload has fewer
than 3 bytes (at `buffer[1]`/`buffer[2]`, after the unconditional reply went
out); a Report payload of 3 to 8 bytes is not dropped either — the
capacity-bounded `buffer[:9]` zero-pads it and the handler runs, mutating the
session: client 1's connected set changes from empty to [2]. -/
theorem handleConnection_short_command_payloads_not_dropped :
    handleConnection [] "9.9.9.9:100" (packetMagic ++ [1, NNConnectReply] ++ u32be 7) = none ∧
    handleConnection [] "9.9.9.9:100"
      (packetMagic ++ [1, NNReportRequest] ++ u32be 7 ++ [0, 1]) = none ∧
    ((handleReport
        { Open := true, Version := 1, Cookie := 5,
          Clients := [(1, sampleClient 5 1 2 "n1" "s1" "g" []),
                      (2, sampleClient 5 2 1 "n2" "s2" "g" [])] }
        "9.9.9.9:100" [1, 1, 0] 1).map (fun r =>
        (lookupClient r.session.Clients 1).map NATNEGClient.Connected) = some (some [2])) ∧
    (lookupClient [(1, sampleClient 5 1 2 "n1" "s1" "g" []),
                   (2, sampleClient 5 2 1 "n2" "s2" "g" [])] 1).map
      NATNEGClient.Connected = some [] := by
  exact ⟨rfl, rfl, rfl, rfl⟩

/-- Claim C2, counterexample: a packet with the unrecognized command byte 0x11
and an unseen cookie leaves the registry changed — a fresh session is created
and an expiry timer armed — contradicting "no session is created and no expiry
timer is armed". -/
theorem handleConnection_unknown_command_creates_session :
    handleConnection [] "1.2.3.4:5" (packetMagic ++ [1, 0x11] ++ u32be 9) =
      some ⟨[(9, { Open := true, Version := 1, Cookie := 9, Clients := [] })], [], [9], []⟩ ∧
    ([(9, { Open := true, Version := 1, Cookie := 9, Clients := [] })] : Registry) ≠ [] := by
  exact ⟨rfl, by decide⟩

/-- Claim C3: at expiry, the mid-negotiation client 2 (own signalling address
"2.2.2.2:9") is sent exactly one forced Report-Reply cancellation and the idle
client 1 none, but the packet is addressed to "1.1.1.1:7" — the captured source
address of the session-creating packet — not to client 2's own address. -/
theorem expireSession_misaddressed_cancellation :
    expireSession
      { Open := true, Version := 1, Cookie := 5,
        Clients := [(1, sampleClient 5 1 1 "1.1.1.1:7" "1.1.1.1:7" "g" []),
                    (2, sampleClient 5 2 1 "2.2.2.2:9" "2.2.2.2:9" "g" [])] }
      "1.1.1.1:7" 1 =
      ({ Open := false, Version := 1, Cookie := 5,
         Clients := [(1, sampleClient 5 1 1 "1.1.1.1:7" "1.1.1.1:7" "g" []),
                     (2, sampleClient 5 2 1 "2.2.2.2:9" "2.2.2.2:9" "g" [])] },
       [([0xfd, 0xfc, 0x1e, 0x66, 0x6a, 0xb2, 1, 0x0E, 0, 0, 0, 5, 0x00, 2, 0x00, 0x00,
          0x00, 0x00, 0x06, 0x00, 0x00], "1.1.1.1:7")]) ∧
    (sampleClient 5 2 1 "2.2.2.2:9" "2.2.2.2:9" "g" []).NegotiateIP ≠ "1.1.1.1:7" := by
  exact ⟨rfl, by decide⟩

/-- Claim C4, counterexample: in a session whose two clients both hold game
name "g", an Init for the already-registered index 1 with game name "other"
is not rejected: it overwrites client 1's game name, leaving the two clients
with different game names. -/
theorem handleInit_existing_client_gamename_overwrite :
    ((lookupClient (handleInit
        { Open := true, Version := 1, Cookie := 5,
          Clients := [(1, sampleClient 5 1 1 "1.1.1.1:7" "" "g" []),
                      (2, sampleClient 5 2 2 "2.2.2.2:9" "2.2.2.2:9" "g" [])] }
        "3.3.3.3:3" [1, 1, 1, 0, 0, 0, 0, 0, 0, 111, 116, 104, 101, 114, 0] 1).session.Clients
        1).map NATNEGClient.GameName = some "other") ∧
    ((lookupClient (handleInit
        { Open := true, Version := 1, Cookie := 5,
          Clients := [(1, sampleClient 5 1 1 "1.1.1.1:7" "" "g" []),
                      (2, sampleClient 5 2 2 "2.2.2.2:9" "2.2.2.2:9" "g" [])] }
        "3.3.3.3:3" [1, 1, 1, 0, 0, 0, 0, 0, 0, 111, 116, 104, 101, 114, 0] 1).session.Clients
        2).map NATNEGClient.GameName = some "g") ∧
    ("other" : String) ≠ "g" := by
  exact ⟨rfl, rfl, by decide⟩

/-- Claim C5, counterexample: clients 1 and 2 are idle and mapped, client 2 is
recorded in client 1's connected set, and client 1 is not in client 2's; the
engine nevertheless pairs them (edge (1,2)), because only the
`destination.Connected[sender]` direction is checked. -/
theorem sendConnectRequests_one_directional_connected_check :
    (sendConnectRequests [(1, sampleClient 5 1 1 "n1" "s1" "g" [2]),
                          (2, sampleClient 5 2 2 "n2" "s2" "g" [])]).2 = [(1, 2)] ∧
    (sampleClient 5 1 1 "n1" "s1" "g" [2]).Connected.contains 2 = true := by
  exact ⟨rfl, rfl⟩

/-- Claim C6: with three idle mapped pairwise-unconnected clients, one
invocation of the pairing engine assigns client 1 two partners (edges (1,2)
and (1,3), two retry tasks) and ends non-mutually: client 2 targets 1 while
client 1 targets 3. -/
theorem sendConnectRequests_three_clients_nonmutual :
    ((lookupClient (sendConnectRequests
        [(1, sampleClient 5 1 1 "n1" "s1" "g" []),
         (2, sampleClient 5 2 2 "n2" "s2" "g" []),
         (3, sampleClient 5 3 3 "n3" "s3" "g" [])]).1 2).map
      NATNEGClient.ConnectingIndex = some 1) ∧
    ((lookupClient (sendConnectRequests
        [(1, sampleClient 5 1 1 "n1" "s1" "g" []),
         (2, sampleClient 5 2 2 "n2" "s2" "g" []),
         (3, sampleClient 5 3 3 "n3" "s3" "g" [])]).1 1).map
      NATNEGClient.ConnectingIndex = some 3) ∧
    (sendConnectRequests
        [(1, sampleClient 5 1 1 "n1" "s1" "g" []),
         (2, sampleClient 5 2 2 "n2" "s2" "g" []),
         (3, sampleClient 5 3 3 "n3" "s3" "g" [])]).2 = [(1, 2), (1, 3)] ∧
    (3 : Byte) ≠ 2 := by
  exact ⟨rfl, rfl, rfl, by decide⟩

/-- Claim C7, counterexample: client 1 (mid-negotiation towards 2) reports;
its connected set becomes [2]. The identical duplicate Report makes it [2, 1]:
the rotation inserts the now-own-index connecting target, so two applications
differ from one — 1 is a member after the duplicate but not before. -/
theorem handleReport_duplicate_not_idempotent :
    ((handleReport
        { Open := true, Version := 1, Cookie := 5,
          Clients := [(1, sampleClient 5 1 2 "n1" "s1" "g" []),
                      (2, sampleClient 5 2 1 "n2" "s2" "g" [])] }
        "src" [1, 1, 1, 0, 0, 0, 0, 0, 0] 1).map (fun r =>
        (lookupClient r.session.Clients 1).map NATNEGClient.Connected) = some (some [2])) ∧
    (((handleReport
        { Open := true, Version := 1, Cookie := 5,
          Clients := [(1, sampleClient 5 1 2 "n1" "s1" "g" []),
                      (2, sampleClient 5 2 1 "n2" "s2" "g" [])] }
        "src" [1, 1, 1, 0, 0, 0, 0, 0, 0] 1).bind (fun r1 =>
          handleReport r1.session "src" [1, 1, 1, 0, 0, 0, 0, 0, 0] 1)).map (fun r =>
        (lookupClient r.session.Clients 1).map NATNEGClient.Connected) = some (some [2, 1])) ∧
    ([2] : List Byte).contains 1 = false ∧ ([2, 1] : List Byte).contains 1 = true := by
  exact ⟨rfl, rfl, rfl, rfl⟩

end Natneg

namespace Natneg

/-- Claim C2, amended: for every packet with valid magic, length at least 12
and an unrecognized command byte (above 0x10): no reply is sent and no pairing
task starts; if the cookie already has a session, nothing changes at all — the
registry is returned untouched, whatever the payload; if the cookie is unseen,
the only effect is that a fresh empty session is appended to the registry and
its 30-second expiry timer armed. -/
theorem handleConnection_unrecognized_command (reg : Registry) (src : String)
    (buffer : List Byte) (hlen : 12 ≤ buffer.length)
    (hmagic : buffer.take 6 = packetMagic) (hc : 0x10 < buffer.getD 7 0) :
    (∀ s, lookupSession reg (u32ofBytes (buffer.getD 8 0) (buffer.getD 9 0)
        (buffer.getD 10 0) (buffer.getD 11 0)) = some s →
      handleConnection reg src buffer = some ⟨reg, [], [], []⟩) ∧
    (lookupSession reg (u32ofBytes (buffer.getD 8 0) (buffer.getD 9 0)
        (buffer.getD 10 0) (buffer.getD 11 0)) = none →
      handleConnection reg src buffer =
        some ⟨reg ++ [(u32ofBytes (buffer.getD 8 0) (buffer.getD 9 0) (buffer.getD 10 0)
            (buffer.getD 11 0),
          { Open := true, Version := buffer.getD 6 0,
            Cookie := u32ofBytes (buffer.getD 8 0) (buffer.getD 9 0) (buffer.getD 10 0)
              (buffer.getD 11 0),
            Clients := [] })],
          [], [u32ofBytes (buffer.getD 8 0) (buffer.getD 9 0) (buffer.getD 10 0)
            (buffer.getD 11 0)], []⟩) := by
  have h1 : ¬(buffer.getD 7 0 = NNNatifyRequest ∨ buffer.getD 7 0 = NNAddressCheckRequest) := by
    rintro (h | h) <;> exact absurd (h ▸ hc) (by decide)
  have h2 : ¬ buffer.getD 7 0 = NNInitRequest := fun h => absurd (h ▸ hc) (by decide)
  have h3 : ¬ buffer.getD 7 0 = NNConnectReply := fun h => absurd (h ▸ hc) (by decide)
  have h4 : ¬ buffer.getD 7 0 = NNReportRequest := fun h => absurd (h ▸ hc) (by decide)
  have hbound : ¬(buffer.length < 12 ∨ buffer.take 6 ≠ packetMagic) := by
    rw [not_or]
    exact ⟨by omega, fun hh => hh hmagic⟩
  constructor
  · intro s hs
    unfold handleConnection
    rw [if_neg hbound]
    dsimp only
    rw [if_neg h1]
    simp only [hs]
    split
    · rfl
    · rfl
  · intro h0
    unfold handleConnection
    rw [if_neg hbound]
    dsimp only
    rw [if_neg h1]
    simp only [h0]
    rw [if_neg (fun hh => hh rfl)]
    rw [if_neg h2, if_neg h3, if_neg h4]

end Natneg

namespace Natneg

/-- Claim C4, amended: game-name consistency is enforced only at registration:
an Init referencing a NEW client index whose game name differs from some
existing client's game name is rejected — the client is not added, no session
state changes, only the unconditional acknowledgement is sent, and no pairing
task starts. (An Init for an already-registered index overwrites its game name
unchecked.) -/
theorem handleInit_new_client_gamename_mismatch_rejected (s : NATNEGSession) (src : String)
    (pl : List Byte) (v : Byte) (g : String)
    (hlen : ¬ pl.length < 10)
    (hg : getString (pl.drop 9) = some g)
    (hpt : ¬ pl.getD 0 0 > 0x03)
    (hugp : ¬ pl.getD 2 0 > 1)
    (hcontra : ¬ (pl.getD 2 0 = 0 ∧ pl.getD 0 0 = PortTypeGamePort))
    (hnew : lookupClient s.Clients (pl.getD 1 0) = none)
    (hmis : (s.Clients.any fun kc => kc.2.GameName != g) = true) :
    handleInit s src pl v =
      ⟨s, [(createPacketHeader v NNInitReply s.Cookie ++ [pl.getD 0 0, pl.getD 1 0] ++
        [0xff, 0xff, 0x6d, 0x16, 0xb5, 0x7d, 0xea], src)], []⟩ := by
  unfold handleInit
  rw [if_neg hlen]
  simp only [hg]
  rw [if_neg hpt, if_neg hugp, if_neg hcontra]
  unfold initRegisterAndLearn initClients
  simp only [hnew]
  rw [if_pos hmis]

/-- Witness for the amended C4 theorem: a two-client "g" session rejects the
registration of new index 3 with game name "h". -/
theorem handleInit_new_client_gamename_mismatch_rejected_witness :
    handleInit
      { Open := true, Version := 1, Cookie := 5,
        Clients := [(1, sampleClient 5 1 1 "n1" "s1" "g" []),
                    (2, sampleClient 5 2 2 "n2" "s2" "g" [])] }
      "3.3.3.3:3" [1, 3, 1, 0, 0, 0, 0, 0, 0, 104, 0] 1 =
      ⟨{ Open := true, Version := 1, Cookie := 5,
         Clients := [(1, sampleClient 5 1 1 "n1" "s1" "g" []),
                     (2, sampleClient 5 2 2 "n2" "s2" "g" [])] },
       [(createPacketHeader 1 NNInitReply 5 ++
         [([1, 3, 1, 0, 0, 0, 0, 0, 0, 104, 0] : List Byte).getD 0 0,
          ([1, 3, 1, 0, 0, 0, 0, 0, 0, 104, 0] : List Byte).getD 1 0] ++
         [0xff, 0xff, 0x6d, 0x16, 0xb5, 0x7d, 0xea], "3.3.3.3:3")], []⟩ :=
  handleInit_new_client_gamename_mismatch_rejected
    { Open := true, Version := 1, Cookie := 5,
      Clients := [(1, sampleClient 5 1 1 "n1" "s1" "g" []),
                  (2, sampleClient 5 2 2 "n2" "s2" "g" [])] }
    "3.3.3.3:3" [1, 3, 1, 0, 0, 0, 0, 0, 0, 104, 0] 1 "h"
    (by decide) rfl (by decide) (by decide) (by decide) rfl (by decide)

/-- Claim C5, amended: the engine's connected check is one-directional: for
every edge (a, b) it records, a was absent from b's connected set at
invocation time; whether b is in a's connected set is never consulted. -/
theorem sendConnectRequests_checks_destination_connected (cs : ClientMap) (a b : Byte)
    (hmem : (a, b) ∈ (sendConnectRequests cs).2) :
    ∃ c, lookupClient cs b = some c ∧ c.Connected.contains a = false :=
  sendConnectRequests_edges cs (a, b) hmem

/-- Witness for the amended C5 theorem on a two-client session whose engine
records the edge (1, 2). -/
theorem sendConnectRequests_checks_destination_connected_witness :
    ∃ c, lookupClient [(1, sampleClient 5 1 1 "n1" "s1" "g" []),
                       (2, sampleClient 5 2 2 "n2" "s2" "g" [])] 2 = some c ∧
      c.Connected.contains 1 = false :=
  sendConnectRequests_checks_destination_connected
    [(1, sampleClient 5 1 1 "n1" "s1" "g" []),
     (2, sampleClient 5 2 2 "n2" "s2" "g" [])] 1 2 (by decide)

/-- Claim C7, amended: handling a Report for client k sets k's connected set
to its previous connected set with k's previous connectingIndex inserted, and
changes no other client's connected set; a duplicate Report therefore inserts
k's post-rotation connectingIndex (k's own index when the engine did not
re-pair k) instead of adding nothing, so Report is not idempotent on the
connected set. -/
theorem handleReport_connected_sets (s : NATNEGSession) (src : String) (pl : List Byte)
    (v : Byte) (hlen : 9 ≤ pl.length) :
    ∃ r, handleReport s src pl v = some r ∧
      ∀ k, (lookupClient r.session.Clients k).map NATNEGClient.Connected =
        (lookupClient s.Clients k).map (fun c =>
          if k = pl.getD 1 0 then insertConnected c.Connected c.ConnectingIndex
          else c.Connected) := by
  refine ⟨_, handleReport_some s src pl v hlen, ?_⟩
  intro k
  have h1 := lookupClient_proj_mapStatic
    (mapStatic_sendConnectRequests (reportRotate s.Clients (pl.getD 1 0))) k
    NATNEGClient.Connected (fun x y h => staticPart_Connected h)
  dsimp only
  rw [h1, reportRotate_Connected]

/-- Witness for the amended C7 theorem on the two-client session of the
counterexample. -/
theorem handleReport_connected_sets_witness :
    ∃ r, handleReport
        { Open := true, Version := 1, Cookie := 5,
          Clients := [(1, sampleClient 5 1 2 "n1" "s1" "g" []),
                      (2, sampleClient 5 2 1 "n2" "s2" "g" [])] }
        "src" [1, 1, 1, 0, 0, 0, 0, 0, 0] 1 = some r ∧
      ∀ k, (lookupClient r.session.Clients k).map NATNEGClient.Connected =
        (lookupClient [(1, sampleClient 5 1 2 "n1" "s1" "g" []),
                       (2, sampleClient 5 2 1 "n2" "s2" "g" [])] k).map (fun c =>
          if k = ([1, 1, 1, 0, 0, 0, 0, 0, 0] : List Byte).getD 1 0 then
            insertConnected c.Connected c.ConnectingIndex
          else c.Connected) :=
  handleReport_connected_sets
    { Open := true, Version := 1, Cookie := 5,
      Clients := [(1, sampleClient 5 1 2 "n1" "s1" "g" []),
                  (2, sampleClient 5 2 1 "n2" "s2" "g" [])] }
    "src" [1, 1, 1, 0, 0, 0, 0, 0, 0] 1 (by decide)

end Natneg

namespace Natneg

/-- Witness for the amended C2 theorem: a registry already holding cookie 5,
and a 15-byte packet with command 0x11, cookie 5 and a 3-byte payload. -/
theorem handleConnection_unrecognized_command_witness :
    (∀ s, lookupSession [(5, { Open := true, Version := 1, Cookie := 5, Clients := [] })]
        (u32ofBytes
          (([0xfd, 0xfc, 0x1e, 0x66, 0x6a, 0xb2, 1, 0x11, 0, 0, 0, 5, 7, 7, 7] :
            List Byte).getD 8 0)
          (([0xfd, 0xfc, 0x1e, 0x66, 0x6a, 0xb2, 1, 0x11, 0, 0, 0, 5, 7, 7, 7] :
            List Byte).getD 9 0)
          (([0xfd, 0xfc, 0x1e, 0x66, 0x6a, 0xb2, 1, 0x11, 0, 0, 0, 5, 7, 7, 7] :
            List Byte).getD 10 0)
          (([0xfd, 0xfc, 0x1e, 0x66, 0x6a, 0xb2, 1, 0x11, 0, 0, 0, 5, 7, 7, 7] :
            List Byte).getD 11 0)) = some s →
      handleConnection [(5, { Open := true, Version := 1, Cookie := 5, Clients := [] })]
        "1.2.3.4:5" [0xfd, 0xfc, 0x1e, 0x66, 0x6a, 0xb2, 1, 0x11, 0, 0, 0, 5, 7, 7, 7] =
        some ⟨[(5, { Open := true, Version := 1, Cookie := 5, Clients := [] })],
          [], [], []⟩) ∧
    (lookupSession [(5, { Open := true, Version := 1, Cookie := 5, Clients := [] })]
        (u32ofBytes
          (([0xfd, 0xfc, 0x1e, 0x66, 0x6a, 0xb2, 1, 0x11, 0, 0, 0, 5, 7, 7, 7] :
            List Byte).getD 8 0)
          (([0xfd, 0xfc, 0x1e, 0x66, 0x6a, 0xb2, 1, 0x11, 0, 0, 0, 5, 7, 7, 7] :
            List Byte).getD 9 0)
          (([0xfd, 0xfc, 0x1e, 0x66, 0x6a, 0xb2, 1, 0x11, 0, 0, 0, 5, 7, 7, 7] :
            List Byte).getD 10 0)
          (([0xfd, 0xfc, 0x1e, 0x66, 0x6a, 0xb2, 1, 0x11, 0, 0, 0, 5, 7, 7, 7] :
            List Byte).getD 11 0)) = none →
      handleConnection [(5, { Open := true, Version := 1, Cookie := 5, Clients := [] })]
        "1.2.3.4:5" [0xfd, 0xfc, 0x1e, 0x66, 0x6a, 0xb2, 1, 0x11, 0, 0, 0, 5, 7, 7, 7] =
        some ⟨[(5, { Open := true, Version := 1, Cookie := 5, Clients := [] })] ++
          [(u32ofBytes
              (([0xfd, 0xfc, 0x1e, 0x66, 0x6a, 0xb2, 1, 0x11, 0, 0, 0, 5, 7, 7, 7] :
                List Byte).getD 8 0)
              (([0xfd, 0xfc, 0x1e, 0x66, 0x6a, 0xb2, 1, 0x11, 0, 0, 0, 5, 7, 7, 7] :
                List Byte).getD 9 0)
              (([0xfd, 0xfc, 0x1e, 0x66, 0x6a, 0xb2, 1, 0x11, 0, 0, 0, 5, 7, 7, 7] :
                List Byte).getD 10 0)
              (([0xfd, 0xfc, 0x1e, 0x66, 0x6a, 0xb2, 1, 0x11, 0, 0, 0, 5, 7, 7, 7] :
                List Byte).getD 11 0),
            { Open := true,
              Version := ([0xfd, 0xfc, 0x1e, 0x66, 0x6a, 0xb2, 1, 0x11, 0, 0, 0, 5, 7, 7, 7] :
                List Byte).getD 6 0,
              Cookie := u32ofBytes
                (([0xfd, 0xfc, 0x1e, 0x66, 0x6a, 0xb2, 1, 0x11, 0, 0, 0, 5, 7, 7, 7] :
                  List Byte).getD 8 0)
                (([0xfd, 0xfc, 0x1e, 0x66, 0x6a, 0xb2, 1, 0x11, 0, 0, 0, 5, 7, 7, 7] :
                  List Byte).getD 9 0)
                (([0xfd, 0xfc, 0x1e, 0x66, 0x6a, 0xb2, 1, 0x11, 0, 0, 0, 5, 7, 7, 7] :
                  List Byte).getD 10 0)
                (([0xfd, 0xfc, 0x1e, 0x66, 0x6a, 0xb2, 1, 0x11, 0, 0, 0, 5, 7, 7, 7] :
                  List Byte).getD 11 0),
              Clients := [] })],
          [], [u32ofBytes
            (([0xfd, 0xfc, 0x1e, 0x66, 0x6a, 0xb2, 1, 0x11, 0, 0, 0, 5, 7, 7, 7] :
              List Byte).getD 8 0)
            (([0xfd, 0xfc, 0x1e, 0x66, 0x6a, 0xb2, 1, 0x11, 0, 0, 0, 5, 7, 7, 7] :
              List Byte).getD 9 0)
            (([0xfd, 0xfc, 0x1e, 0x66, 0x6a, 0xb2, 1, 0x11, 0, 0, 0, 5, 7, 7, 7] :
              List Byte).getD 10 0)
            (([0xfd, 0xfc, 0x1e, 0x66, 0x6a, 0xb2, 1, 0x11, 0, 0, 0, 5, 7, 7, 7] :
              List Byte).getD 11 0)], []⟩) :=
  handleConnection_unrecognized_command
    [(5, { Open := true, Version := 1, Cookie := 5, Clients := [] })] "1.2.3.4:5"
    [0xfd, 0xfc, 0x1e, 0x66, 0x6a, 0xb2, 1, 0x11, 0, 0, 0, 5, 7, 7, 7]
    (by decide) rfl (by decide)

/-! ### isMapped helper lemmas -/

theorem isMapped_fields {c : NATNEGClient} (hm : c.isMapped = true) :
    c.NegotiateIP ≠ "" ∧ c.ServerIP ≠ "" := by
  unfold NATNEGClient.isMapped at hm
  split at hm
  · cases hm
  · next h => exact not_or.1 h

theorem isMapped_staticPart {c c' : NATNEGClient} (h : staticPart c = staticPart c') :
    c.isMapped = c'.isMapped := by
  unfold NATNEGClient.isMapped
  rw [staticPart_NegotiateIP h, staticPart_ServerIP h]

theorem isMapped_applyInitFields (src lip g : String) (pt ugp : Byte) (lp : Nat)
    (c : NATNEGClient) (hsrc : src ≠ "") (hm : c.isMapped = true) :
    (applyInitFields src lip g pt ugp lp c).isMapped = true := by
  obtain ⟨hA, hB⟩ := isMapped_fields hm
  have hN : (applyInitFields src lip g pt ugp lp c).NegotiateIP ≠ "" := by
    rw [applyInitFields_NegotiateIP]
    split
    · exact hsrc
    · exact hA
  have hS : (applyInitFields src lip g pt ugp lp c).ServerIP ≠ "" := by
    rw [applyInitFields_ServerIP]
    split
    · exact hsrc
    · exact hB
  unfold NATNEGClient.isMapped
  rw [if_neg (not_or.2 ⟨hN, hS⟩)]

theorem initClients_lookup_some {s : NATNEGSession} {idx : Byte} {g : String} {cs0 : ClientMap}
    (h : initClients s idx g = some cs0) {k : Byte} {c : NATNEGClient}
    (hc : lookupClient s.Clients k = some c) : lookupClient cs0 k = some c := by
  unfold initClients at h
  cases hl : lookupClient s.Clients idx with
  | some c2 => simp only [hl] at h; injection h with h; subst h; exact hc
  | none =>
    simp only [hl] at h
    split at h
    · cases h
    · injection h with h
      subst h
      exact lookupClient_append_some _ hc

end Natneg

namespace Natneg

/-- Claim C8: for an Init packet that passes all validation (including
registration), the referenced client's address fields are updated exactly as
specified: negotiateIP becomes the packet source iff portType ≠ GamePort,
localIP becomes the reported local address iff the reported local port ≠ 0,
serverIP becomes the packet source iff useGamePort = 0 or portType = GamePort;
a false condition leaves the field unchanged. -/
theorem handleInit_address_learning (s : NATNEGSession) (src : String) (pl : List Byte)
    (v : Byte) (g : String) (cs0 : ClientMap) (c : NATNEGClient)
    (hlen : ¬ pl.length < 10)
    (hg : getString (pl.drop 9) = some g)
    (hpt : ¬ pl.getD 0 0 > 0x03)
    (hugp : ¬ pl.getD 2 0 > 1)
    (hcontra : ¬ (pl.getD 2 0 = 0 ∧ pl.getD 0 0 = PortTypeGamePort))
    (hstart : initClients s (pl.getD 1 0) g = some cs0)
    (hc : lookupClient cs0 (pl.getD 1 0) = some c) :
    ((lookupClient (handleInit s src pl v).session.Clients (pl.getD 1 0)).map
        NATNEGClient.NegotiateIP =
      some (if pl.getD 0 0 ≠ PortTypeGamePort then src else c.NegotiateIP)) ∧
    ((lookupClient (handleInit s src pl v).session.Clients (pl.getD 1 0)).map
        NATNEGClient.LocalIP =
      some (if pl.getD 7 0 * 256 + pl.getD 8 0 ≠ 0 then
        ipPortString (pl.getD 3 0) (pl.getD 4 0) (pl.getD 5 0) (pl.getD 6 0)
          (pl.getD 7 0 * 256 + pl.getD 8 0)
      else c.LocalIP)) ∧
    ((lookupClient (handleInit s src pl v).session.Clients (pl.getD 1 0)).map
        NATNEGClient.ServerIP =
      some (if pl.getD 2 0 = 0 ∨ pl.getD 0 0 = PortTypeGamePort then src
        else c.ServerIP)) := by
  have hfin : (handleInit s src pl v).session.Clients =
      updateClient cs0 (pl.getD 1 0)
        (applyInitFields src
          (ipPortString (pl.getD 3 0) (pl.getD 4 0) (pl.getD 5 0) (pl.getD 6 0)
            (pl.getD 7 0 * 256 + pl.getD 8 0))
          g (pl.getD 0 0) (pl.getD 2 0) (pl.getD 7 0 * 256 + pl.getD 8 0)) ∨
      (handleInit s src pl v).session.Clients =
      (sendConnectRequests (updateClient cs0 (pl.getD 1 0)
        (applyInitFields src
          (ipPortString (pl.getD 3 0) (pl.getD 4 0) (pl.getD 5 0) (pl.getD 6 0)
            (pl.getD 7 0 * 256 + pl.getD 8 0))
          g (pl.getD 0 0) (pl.getD 2 0) (pl.getD 7 0 * 256 + pl.getD 8 0)))).1 := by
    unfold handleInit
    rw [if_neg hlen]
    simp only [hg]
    rw [if_neg hpt, if_neg hugp, if_neg hcontra]
    unfold initRegisterAndLearn
    simp only [hstart]
    cases h2 : lookupClient (updateClient cs0 (pl.getD 1 0)
        (applyInitFields src (ipPortString (pl.getD 3 0) (pl.getD 4 0) (pl.getD 5 0)
          (pl.getD 6 0) (pl.getD 7 0 * 256 + pl.getD 8 0)) g (pl.getD 0 0) (pl.getD 2 0)
          (pl.getD 7 0 * 256 + pl.getD 8 0))) (pl.getD 1 0) with
    | none => simp [h2]
    | some sender =>
      simp only [h2]
      split
      · exact Or.inl rfl
      · exact Or.inr rfl
  have key : ∀ φ : NATNEGClient → String, (∀ x y, staticPart x = staticPart y → φ x = φ y) →
      (lookupClient (handleInit s src pl v).session.Clients (pl.getD 1 0)).map φ =
        some (φ (applyInitFields src
          (ipPortString (pl.getD 3 0) (pl.getD 4 0) (pl.getD 5 0) (pl.getD 6 0)
            (pl.getD 7 0 * 256 + pl.getD 8 0))
          g (pl.getD 0 0) (pl.getD 2 0) (pl.getD 7 0 * 256 + pl.getD 8 0) c)) := by
    intro φ hφ
    rcases hfin with h | h
    · rw [h, lookupClient_updateClient, if_pos rfl, hc]
      rfl
    · rw [h, lookupClient_proj_mapStatic (mapStatic_sendConnectRequests _) _ φ hφ,
        lookupClient_updateClient, if_pos rfl, hc]
      rfl
  refine ⟨?_, ?_, ?_⟩
  · rw [key NATNEGClient.NegotiateIP (fun x y h => staticPart_NegotiateIP h),
      applyInitFields_NegotiateIP]
  · rw [key NATNEGClient.LocalIP (fun x y h => staticPart_LocalIP h),
      applyInitFields_LocalIP]
  · rw [key NATNEGClient.ServerIP (fun x y h => staticPart_ServerIP h),
      applyInitFields_ServerIP]

end Natneg

namespace Natneg

/-- Witness for the C8 theorem: an Init (portType 1, client 1, useGamePort 1,
local 9.9.9.9:7, game "g") from "4.4.4.4:4" for an existing client. -/
theorem handleInit_address_learning_witness :
    ((lookupClient (handleInit
        { Open := true, Version := 1, Cookie := 5,
          Clients := [(1, sampleClient 5 1 1 "oldneg" "oldsrv" "g" [])] }
        "4.4.4.4:4" [1, 1, 1, 9, 9, 9, 9, 0, 7, 103, 0] 1).session.Clients
        (([1, 1, 1, 9, 9, 9, 9, 0, 7, 103, 0] : List Byte).getD 1 0)).map
        NATNEGClient.NegotiateIP =
      some (if ([1, 1, 1, 9, 9, 9, 9, 0, 7, 103, 0] : List Byte).getD 0 0 ≠ PortTypeGamePort
        then "4.4.4.4:4" else (sampleClient 5 1 1 "oldneg" "oldsrv" "g" []).NegotiateIP)) ∧
    ((lookupClient (handleInit
        { Open := true, Version := 1, Cookie := 5,
          Clients := [(1, sampleClient 5 1 1 "oldneg" "oldsrv" "g" [])] }
        "4.4.4.4:4" [1, 1, 1, 9, 9, 9, 9, 0, 7, 103, 0] 1).session.Clients
        (([1, 1, 1, 9, 9, 9, 9, 0, 7, 103, 0] : List Byte).getD 1 0)).map
        NATNEGClient.LocalIP =
      some (if ([1, 1, 1, 9, 9, 9, 9, 0, 7, 103, 0] : List Byte).getD 7 0 * 256 +
          ([1, 1, 1, 9, 9, 9, 9, 0, 7, 103, 0] : List Byte).getD 8 0 ≠ 0 then
        ipPortString (([1, 1, 1, 9, 9, 9, 9, 0, 7, 103, 0] : List Byte).getD 3 0)
          (([1, 1, 1, 9, 9, 9, 9, 0, 7, 103, 0] : List Byte).getD 4 0)
          (([1, 1, 1, 9, 9, 9, 9, 0, 7, 103, 0] : List Byte).getD 5 0)
          (([1, 1, 1, 9, 9, 9, 9, 0, 7, 103, 0] : List Byte).getD 6 0)
          (([1, 1, 1, 9, 9, 9, 9, 0, 7, 103, 0] : List Byte).getD 7 0 * 256 +
            ([1, 1, 1, 9, 9, 9, 9, 0, 7, 103, 0] : List Byte).getD 8 0)
      else (sampleClient 5 1 1 "oldneg" "oldsrv" "g" []).LocalIP)) ∧
    ((lookupClient (handleInit
        { Open := true, Version := 1, Cookie := 5,
          Clients := [(1, sampleClient 5 1 1 "oldneg" "oldsrv" "g" [])] }
        "4.4.4.4:4" [1, 1, 1, 9, 9, 9, 9, 0, 7, 103, 0] 1).session.Clients
        (([1, 1, 1, 9, 9, 9, 9, 0, 7, 103, 0] : List Byte).getD 1 0)).map
        NATNEGClient.ServerIP =
      some (if ([1, 1, 1, 9, 9, 9, 9, 0, 7, 103, 0] : List Byte).getD 2 0 = 0 ∨
          ([1, 1, 1, 9, 9, 9, 9, 0, 7, 103, 0] : List Byte).getD 0 0 = PortTypeGamePort
        then "4.4.4.4:4" else (sampleClient 5 1 1 "oldneg" "oldsrv" "g" []).ServerIP)) :=
  handleInit_address_learning
    { Open := true, Version := 1, Cookie := 5,
      Clients := [(1, sampleClient 5 1 1 "oldneg" "oldsrv" "g" [])] }
    "4.4.4.4:4" [1, 1, 1, 9, 9, 9, 9, 0, 7, 103, 0] 1 "g"
    [(1, sampleClient 5 1 1 "oldneg" "oldsrv" "g" [])]
    (sampleClient 5 1 1 "oldneg" "oldsrv" "g" [])
    (by decide) rfl (by decide) (by decide) (by decide) rfl rfl

/-- Claim C9: a client is mapped iff both its negotiateIP and serverIP are
nonempty, and once mapped it is never un-mapped by a further Init packet
(packet source addresses are nonempty strings). -/
theorem handleInit_mapped_monotone (s : NATNEGSession) (src : String) (pl : List Byte)
    (v : Byte) (k : Byte) (c : NATNEGClient) (hsrc : src ≠ "")
    (hc : lookupClient s.Clients k = some c) (hm : c.isMapped = true) :
    (∀ cl : NATNEGClient, cl.isMapped = true ↔ (cl.NegotiateIP ≠ "" ∧ cl.ServerIP ≠ "")) ∧
    ∃ c', lookupClient (handleInit s src pl v).session.Clients k = some c' ∧
      c'.isMapped = true := by
  constructor
  · intro cl
    unfold NATNEGClient.isMapped
    by_cases hA : cl.NegotiateIP = "" <;> by_cases hB : cl.ServerIP = "" <;> simp [hA, hB]
  · rcases handleInit_clients_cases s src pl v with h | ⟨g, cs0, hgs, hcs0, h | h⟩
    · refine ⟨c, ?_, hm⟩
      rw [h]
      exact hc
    · have hcs0' : lookupClient cs0 k = some c := initClients_lookup_some hcs0 hc
      rw [h, lookupClient_updateClient]
      by_cases hk : k = pl.getD 1 0
      · rw [if_pos hk, hcs0']
        exact ⟨_, rfl, isMapped_applyInitFields _ _ _ _ _ _ c hsrc hm⟩
      · rw [if_neg hk, hcs0']
        exact ⟨c, rfl, hm⟩
    · have hcs0' : lookupClient cs0 k = some c := initClients_lookup_some hcs0 hc
      by_cases hk : k = pl.getD 1 0
      · have hu : lookupClient (updateClient cs0 (pl.getD 1 0)
            (applyInitFields src
              (ipPortString (pl.getD 3 0) (pl.getD 4 0) (pl.getD 5 0) (pl.getD 6 0)
                (pl.getD 7 0 * 256 + pl.getD 8 0))
              g (pl.getD 0 0) (pl.getD 2 0) (pl.getD 7 0 * 256 + pl.getD 8 0))) k =
            some (applyInitFields src
              (ipPortString (pl.getD 3 0) (pl.getD 4 0) (pl.getD 5 0) (pl.getD 6 0)
                (pl.getD 7 0 * 256 + pl.getD 8 0))
              g (pl.getD 0 0) (pl.getD 2 0) (pl.getD 7 0 * 256 + pl.getD 8 0) c) := by
          rw [lookupClient_updateClient, if_pos hk, hcs0']
          rfl
        obtain ⟨c', hc', hs⟩ := lookupClient_some_mapStatic
          (mapStatic_sendConnectRequests _) hu
        refine ⟨c', ?_, ?_⟩
        · rw [h]
          exact hc'
        · rw [isMapped_staticPart hs]
          exact isMapped_applyInitFields _ _ _ _ _ _ c hsrc hm
      · have hu : lookupClient (updateClient cs0 (pl.getD 1 0)
            (applyInitFields src
              (ipPortString (pl.getD 3 0) (pl.getD 4 0) (pl.getD 5 0) (pl.getD 6 0)
                (pl.getD 7 0 * 256 + pl.getD 8 0))
              g (pl.getD 0 0) (pl.getD 2 0) (pl.getD 7 0 * 256 + pl.getD 8 0))) k =
            some c := by
          rw [lookupClient_updateClient, if_neg hk, hcs0']
        obtain ⟨c', hc', hs⟩ := lookupClient_some_mapStatic
          (mapStatic_sendConnectRequests _) hu
        refine ⟨c', ?_, ?_⟩
        · rw [h]
          exact hc'
        · rw [isMapped_staticPart hs]
          exact hm

/-- Witness for the C9 theorem: a mapped client stays mapped across a short
(rejected) Init packet. -/
theorem handleInit_mapped_monotone_witness :
    (∀ cl : NATNEGClient, cl.isMapped = true ↔ (cl.NegotiateIP ≠ "" ∧ cl.ServerIP ≠ "")) ∧
    ∃ c', lookupClient (handleInit
        { Open := true, Version := 1, Cookie := 5,
          Clients := [(1, sampleClient 5 1 1 "n1" "s1" "g" [])] }
        "x" [] 1).session.Clients 1 = some c' ∧
      c'.isMapped = true :=
  handleInit_mapped_monotone
    { Open := true, Version := 1, Cookie := 5,
      Clients := [(1, sampleClient 5 1 1 "n1" "s1" "g" [])] }
    "x" [] 1 1 (sampleClient 5 1 1 "n1" "s1" "g" []) (by decide) rfl (by decide)

/-- Claim C10: key/Index agreement — the empty client map satisfies it, every
handler (Init, ConnectReply, Report) and the expiry callback preserve it, and
under it the Report rotation always leaves the reporting client idle
(connectingIndex = its own Index). -/
theorem clients_keyed_by_index (s : NATNEGSession) (src : String) (pl : List Byte) (v : Byte)
    (hg : goodKeys s.Clients) :
    goodKeys ([] : ClientMap) ∧
    goodKeys (handleInit s src pl v).session.Clients ∧
    (∀ r, handleConnectReply s pl = some r → goodKeys r.session.Clients) ∧
    (∀ r, handleReport s src pl v = some r → goodKeys r.session.Clients) ∧
    goodKeys (expireSession s src v).1.Clients ∧
    (∀ idx c', lookupClient (reportRotate s.Clients idx) idx = some c' →
      c'.ConnectingIndex = c'.Index) := by
  refine ⟨goodKeys_nil, goodKeys_handleInit s src pl v hg, ?_, ?_, hg, ?_⟩
  · intro r h
    exact goodKeys_handleConnectReply h hg
  · intro r h
    exact goodKeys_handleReport h hg
  · intro idx c' h
    exact reportRotate_idle hg idx h

/-- Witness for the C10 theorem on a one-client session whose client is
mid-negotiation. -/
theorem clients_keyed_by_index_witness :
    goodKeys ([] : ClientMap) ∧
    goodKeys (handleInit
      { Open := true, Version := 1, Cookie := 5,
        Clients := [(1, sampleClient 5 1 2 "n1" "s1" "g" [])] }
      "src" [1, 1, 1, 0, 0, 0, 0, 0, 0] 1).session.Clients ∧
    (∀ r, handleConnectReply
      { Open := true, Version := 1, Cookie := 5,
        Clients := [(1, sampleClient 5 1 2 "n1" "s1" "g" [])] }
      [1, 1, 1, 0, 0, 0, 0, 0, 0] = some r → goodKeys r.session.Clients) ∧
    (∀ r, handleReport
      { Open := true, Version := 1, Cookie := 5,
        Clients := [(1, sampleClient 5 1 2 "n1" "s1" "g" [])] }
      "src" [1, 1, 1, 0, 0, 0, 0, 0, 0] 1 = some r → goodKeys r.session.Clients) ∧
    goodKeys (expireSession
      { Open := true, Version := 1, Cookie := 5,
        Clients := [(1, sampleClient 5 1 2 "n1" "s1" "g" [])] }
      "src" 1).1.Clients ∧
    (∀ idx c', lookupClient (reportRotate
      [(1, sampleClient 5 1 2 "n1" "s1" "g" [])] idx) idx = some c' →
      c'.ConnectingIndex = c'.Index) :=
  clients_keyed_by_index
    { Open := true, Version := 1, Cookie := 5,
      Clients := [(1, sampleClient 5 1 2 "n1" "s1" "g" [])] }
    "src" [1, 1, 1, 0, 0, 0, 0, 0, 0] 1
    (by unfold goodKeys; decide)

end Natneg
